import Mathlib

/-!
Verification of the Damon Service pricing backend.

The development shallowly embeds the pricing core of the repository:

* `calculateBreakdown` / `calculatePriceInternal` mirror the client-side
  TypeScript methods of `SupabaseBackendService`
  (src/lib/supabaseBackend.ts, lines 18-60);
* `calculate_price_logic_sell` mirrors the arithmetic steps 1-8 of the
  server-side SQL function `public.calculate_price_logic`
  (supabase migration, lines 486-554);
* `requestPrice`, `getUserRequests`, `setRequestStatus` mirror the
  corresponding async methods, with the relational store modelled as an
  explicit `BackendState` record and the supabase `maybeSingle()` reader
  modelled by `maybeSingle` (data is non-null exactly when the filter
  returns a single row; on zero or several rows the method yields no data).

Numeric columns (`numeric` in SQL, `number` in TypeScript) are modelled as
exact rationals, timestamps as naturals, row ids as naturals.
-/

namespace DamonService

/-- Status column of `inquiry_logs`: CHECK (status IN (pending, approved, rejected)). -/
inductive Status where
  | pending
  | approved
  | rejected
deriving DecidableEq, Repr

/-- A row of the `devices` table, with the fields the pricing code reads. -/
structure Device where
  id : String
  modelName : String
  categoryId : String
  isActive : Bool
  factoryPriceEUR : ℚ
  length : ℚ
  weight : ℚ
deriving DecidableEq, Repr

/-- A row of the `categories` table. -/
structure Category where
  id : String
  name : String
  isActive : Bool
deriving DecidableEq, Repr

/-- A row of the `global_settings` table (the `GlobalSettings` type of the
client plus the `created_at` column that the SQL path orders by). -/
structure GlobalSettings where
  id : String
  isActive : Bool
  discountMultiplier : ℚ
  freightRatePerLengthEUR : ℚ
  customsNumerator : ℚ
  customsDenominator : ℚ
  warrantyRate : ℚ
  internalCommissionFactor : ℚ
  companyCostFactor : ℚ
  profitFactor : ℚ
  createdAt : Nat
deriving DecidableEq, Repr

/-- The `inputs` part of a `PriceBreakdown`. -/
structure PriceInputs where
  P : ℚ
  L : ℚ
  W : ℚ
deriving DecidableEq, Repr

/-- The `params` part of a `PriceBreakdown` (copy of the coefficients used). -/
structure PriceParams where
  D : ℚ
  F : ℚ
  CN : ℚ
  CD : ℚ
  WR : ℚ
  COM : ℚ
  OFF : ℚ
  PF : ℚ
deriving DecidableEq, Repr

/-- The ordered intermediate steps of a `PriceBreakdown`. -/
structure PriceSteps where
  companyPrice : ℚ
  shipment : ℚ
  custom : ℚ
  warranty : ℚ
  subtotal : ℚ
  commission : ℚ
  office : ℚ
  sellPrice : ℤ
deriving DecidableEq, Repr

/-- Return value of `calculateBreakdown`. -/
structure PriceBreakdown where
  inputs : PriceInputs
  params : PriceParams
  steps : PriceSteps
deriving DecidableEq, Repr

/-- Method `SupabaseBackendService.calculateBreakdown` (supabaseBackend.ts 18-56),
translated line by line; `Math.ceil` becomes `Int.ceil`. -/
def calculateBreakdown (device : Device) (settings : GlobalSettings) : PriceBreakdown :=
  let S := settings
  let P := device.factoryPriceEUR
  let L := device.length
  let W := device.weight
  let companyPrice := P * S.discountMultiplier
  let shipment := L * S.freightRatePerLengthEUR
  let custom := W * (S.customsNumerator / S.customsDenominator)
  let warranty := companyPrice * S.warrantyRate
  let subtotal := companyPrice + shipment + custom + warranty
  let commission := subtotal / S.internalCommissionFactor
  let office := commission / S.companyCostFactor
  let sellPrice := Int.ceil (office / S.profitFactor)
  { inputs := { P := P, L := L, W := W }
    params :=
      { D := S.discountMultiplier
        F := S.freightRatePerLengthEUR
        CN := S.customsNumerator
        CD := S.customsDenominator
        WR := S.warrantyRate
        COM := S.internalCommissionFactor
        OFF := S.companyCostFactor
        PF := S.profitFactor }
    steps :=
      { companyPrice := companyPrice
        shipment := shipment
        custom := custom
        warranty := warranty
        subtotal := subtotal
        commission := commission
        office := office
        sellPrice := sellPrice } }

/-- Method `SupabaseBackendService.calculatePriceInternal` (supabaseBackend.ts 58-60). -/
def calculatePriceInternal (device : Device) (settings : GlobalSettings) : ℤ :=
  (calculateBreakdown device settings).steps.sellPrice

/-- Arithmetic steps 1-8 of the SQL function `public.calculate_price_logic`
(migration lines 514-536), translated assignment by assignment;
`CEIL` becomes `Int.ceil`. -/
def calculate_price_logic_sell (d : Device) (s : GlobalSettings) : ℤ :=
  let v_company_price := d.factoryPriceEUR * s.discountMultiplier
  let v_shipment := d.length * s.freightRatePerLengthEUR
  let v_custom := d.weight * (s.customsNumerator / s.customsDenominator)
  let v_warranty := v_company_price * s.warrantyRate
  let v_subtotal := v_company_price + v_shipment + v_custom + v_warranty
  let v_commission := v_subtotal / s.internalCommissionFactor
  let v_office := v_commission / s.companyCostFactor
  Int.ceil (v_office / s.profitFactor)

/-- The seeded parameter row of the worked example (migration seed data). -/
def exampleSettings : GlobalSettings :=
  { id := "s1"
    isActive := true
    discountMultiplier := 0.38
    freightRatePerLengthEUR := 1000
    customsNumerator := 350000
    customsDenominator := 150000
    warrantyRate := 0.05
    internalCommissionFactor := 0.95
    companyCostFactor := 0.95
    profitFactor := 0.65
    createdAt := 1 }

/-- The seeded device of the worked example (VRF-Outdoor-20HP). -/
def exampleDevice : Device :=
  { id := "d1"
    modelName := "VRF-Outdoor-20HP"
    categoryId := "c1"
    isActive := true
    factoryPriceEUR := 15000
    length := 2.5
    weight := 400 }

/-- A device violating the validity requirement factoryPrice > 0. -/
def zeroPriceDevice : Device :=
  { exampleDevice with factoryPriceEUR := 0 }

/-- C1: the price calculation computes, in this fixed order,
companyPrice = factoryPrice * discountMultiplier,
shipment = length * freightRatePerLength,
custom = weight * (customsNumerator / customsDenominator),
warranty = companyPrice * warrantyRate,
subtotal = companyPrice + shipment + custom + warranty,
commission = subtotal / internalCommissionFactor,
office = commission / companyCostFactor, and
sellPrice = ceiling(office / profitFactor), each step depending only on the
prior steps, and the rounding of sellPrice is a true ceiling: sellPrice is
the least integer that is at least office / profitFactor. -/
theorem calculateBreakdown_fixed_order (dv : Device) (s : GlobalSettings) :
    (calculateBreakdown dv s).steps.companyPrice
        = dv.factoryPriceEUR * s.discountMultiplier
      ∧ (calculateBreakdown dv s).steps.shipment
        = dv.length * s.freightRatePerLengthEUR
      ∧ (calculateBreakdown dv s).steps.custom
        = dv.weight * (s.customsNumerator / s.customsDenominator)
      ∧ (calculateBreakdown dv s).steps.warranty
        = (calculateBreakdown dv s).steps.companyPrice * s.warrantyRate
      ∧ (calculateBreakdown dv s).steps.subtotal
        = (calculateBreakdown dv s).steps.companyPrice
          + (calculateBreakdown dv s).steps.shipment
          + (calculateBreakdown dv s).steps.custom
          + (calculateBreakdown dv s).steps.warranty
      ∧ (calculateBreakdown dv s).steps.commission
        = (calculateBreakdown dv s).steps.subtotal / s.internalCommissionFactor
      ∧ (calculateBreakdown dv s).steps.office
        = (calculateBreakdown dv s).steps.commission / s.companyCostFactor
      ∧ (calculateBreakdown dv s).steps.sellPrice
        = Int.ceil ((calculateBreakdown dv s).steps.office / s.profitFactor)
      ∧ (calculateBreakdown dv s).steps.office / s.profitFactor
        ≤ ((calculateBreakdown dv s).steps.sellPrice : ℚ)
      ∧ ∀ z : ℤ, (calculateBreakdown dv s).steps.sellPrice ≤ z
          ↔ (calculateBreakdown dv s).steps.office / s.profitFactor ≤ (z : ℚ) :=
  ⟨rfl, rfl, rfl, rfl, rfl, rfl, rfl, rfl, Int.le_ceil _, fun _ => Int.ceil_le⟩

/-- C2: on the worked example (factoryPrice 15000, length 2.5, weight 400,
the seeded coefficients) the calculation yields companyPrice 5700,
shipment 2500, custom 933.33... = 2800/3, warranty 285,
subtotal 9418.33... = 28255/3, commission 9914.03... = 565100/57,
office 10435.82... = 11302000/1083 and
sellPrice = ceiling(16055.11...) = 16056. -/
theorem calculateBreakdown_worked_example :
    (calculateBreakdown exampleDevice exampleSettings).steps.companyPrice = 5700
      ∧ (calculateBreakdown exampleDevice exampleSettings).steps.shipment = 2500
      ∧ (calculateBreakdown exampleDevice exampleSettings).steps.custom = 2800 / 3
      ∧ (calculateBreakdown exampleDevice exampleSettings).steps.warranty = 285
      ∧ (calculateBreakdown exampleDevice exampleSettings).steps.subtotal = 28255 / 3
      ∧ (calculateBreakdown exampleDevice exampleSettings).steps.commission = 565100 / 57
      ∧ (calculateBreakdown exampleDevice exampleSettings).steps.office = 11302000 / 1083
      ∧ (calculateBreakdown exampleDevice exampleSettings).steps.sellPrice = 16056 := by
  refine ⟨?_, ?_, ?_, ?_, ?_, ?_, ?_, ?_⟩ <;>
    norm_num [calculateBreakdown, exampleDevice, exampleSettings, Int.ceil_eq_iff]

/-- C4 (failing input): the client calculation performs no input validation;
at factoryPrice = 0, which the specification requires to be rejected with
InvalidInput, calculateBreakdown still returns a numeric breakdown with
sellPrice 5853 instead of an error. -/
theorem calculateBreakdown_accepts_invalid_input :
    (calculateBreakdown zeroPriceDevice exampleSettings).steps.sellPrice = 5853 := by
  norm_num [calculateBreakdown, zeroPriceDevice, exampleDevice, exampleSettings,
    Int.ceil_eq_iff]

/-- C8: the client-side TypeScript calculateBreakdown and the arithmetic of
the server-side SQL function calculate_price_logic compute the same
sellPrice for every identical pair of device attributes and parameter set. -/
theorem sell_price_paths_agree (dv : Device) (s : GlobalSettings) :
    calculate_price_logic_sell dv s = (calculateBreakdown dv s).steps.sellPrice := rfl

/-- A row of the `inquiry_logs` table. -/
structure InquiryLog where
  id : Nat
  userId : String
  deviceId : String
  projectId : String
  categoryNameSnapshot : String
  modelNameSnapshot : String
  sellPriceSnapshot : ℚ
  status : Status
  adminResponseTime : Option Nat
  createdAt : Nat
deriving DecidableEq, Repr

/-- The RequestStatusDTO returned by requestPrice and getUserRequests. -/
structure RequestStatusDTO where
  requestId : Nat
  deviceId : String
  projectId : String
  status : Status
  sellPriceEUR : Option ℚ
  timestamp : Nat
deriving DecidableEq, Repr

/-- The relational store the backend methods query, as explicit state,
together with the id and clock the store would assign to an inserted row. -/
structure BackendState where
  devices : List Device
  categories : List Category
  settings : List GlobalSettings
  logs : List InquiryLog
  nextId : Nat
  now : Nat
deriving Repr

/-- Errors thrown by the backend methods. -/
inductive BackendError where
  | deviceNotFound
  | settingsNotFound
deriving DecidableEq, Repr

/-- The supabase `maybeSingle()` reader: its data field is non-null exactly
when the filtered result holds a single row (zero rows give null data, two
or more rows give an error and null data). -/
def maybeSingle (rows : List α) : Option α :=
  match rows with
  | [x] => some x
  | _ => none

/-- The settings lookup of `requestPrice` (supabaseBackend.ts 327-331):
`global_settings` filtered on `is_active = true`, read with `maybeSingle()`
and only the data field used. -/
def tsGetActiveSettings (rows : List GlobalSettings) : Option GlobalSettings :=
  maybeSingle (rows.filter (fun s => s.isActive))

/-- Comparison on `created_at` used to model `ORDER BY created_at DESC`. -/
def settingsNewer (a b : GlobalSettings) : Prop :=
  b.createdAt ≤ a.createdAt

instance : DecidableRel settingsNewer :=
  fun a b => inferInstanceAs (Decidable (b.createdAt ≤ a.createdAt))

instance : IsTotal GlobalSettings settingsNewer :=
  ⟨fun a b => Or.symm (Nat.le_total a.createdAt b.createdAt)⟩

instance : IsTrans GlobalSettings settingsNewer :=
  ⟨fun _ _ _ hab hbc => Nat.le_trans hbc hab⟩

/-- The settings lookup of the SQL function `calculate_price_logic`
(migration line 511): SELECT ... WHERE is_active = true
ORDER BY created_at DESC LIMIT 1. -/
def sqlGetActiveSettings (rows : List GlobalSettings) : Option GlobalSettings :=
  (List.insertionSort settingsNewer (rows.filter (fun s => s.isActive))).head?

/-- The device lookup of `requestPrice` (supabaseBackend.ts 297-301):
`devices` filtered on the primary key, read with `maybeSingle()`. -/
def deviceLookup (st : BackendState) (deviceId : String) : Option Device :=
  maybeSingle (st.devices.filter (fun dv => dv.id == deviceId))

/-- The rows matched by the pending-duplicate query of `requestPrice`
(supabaseBackend.ts 307-314). -/
def pendingLogs (st : BackendState) (userId deviceId projectId : String) :
    List InquiryLog :=
  st.logs.filter (fun l =>
    l.userId == userId && l.deviceId == deviceId && l.projectId == projectId
      && l.status == Status.pending)

/-- The category-name lookup of `requestPrice` (supabaseBackend.ts 337-341,
373): the category name, defaulted to Unknown. -/
def categoryNameLookup (st : BackendState) (categoryId : String) : String :=
  match maybeSingle (st.categories.filter (fun c => c.id == categoryId)) with
  | some c => c.name
  | none => "Unknown"

/-- The DTO built from an existing pending log (supabaseBackend.ts 316-325). -/
def existingDTO (l : InquiryLog) : RequestStatusDTO :=
  { requestId := l.id
    deviceId := l.deviceId
    projectId := l.projectId
    status := l.status
    sellPriceEUR := none
    timestamp := l.createdAt }

/-- The inquiry row inserted by `requestPrice` (supabaseBackend.ts 367-377):
the store assigns the next id, the pending default status and the creation
time; the snapshots and the computed price come from the payload. -/
def newPendingLog (st : BackendState) (userId deviceId projectId : String)
    (device : Device) (settings : GlobalSettings) : InquiryLog :=
  { id := st.nextId
    userId := userId
    deviceId := deviceId
    projectId := projectId
    categoryNameSnapshot := categoryNameLookup st device.categoryId
    modelNameSnapshot := device.modelName
    sellPriceSnapshot := (calculatePriceInternal device settings : ℚ)
    status := Status.pending
    adminResponseTime := none
    createdAt := st.now }

/-- The store state after the insert of one inquiry row. -/
def insertedState (st : BackendState) (log : InquiryLog) : BackendState :=
  { st with logs := st.logs ++ [log], nextId := st.nextId + 1 }

/-- Method `SupabaseBackendService.requestPrice` (supabaseBackend.ts 296-391),
with the store reads and the insert made explicit: device lookup, pending
duplicate check, active settings lookup, price calculation, insert of the
new pending log. -/
def requestPrice (st : BackendState) (userId deviceId projectId : String) :
    Except BackendError (RequestStatusDTO × BackendState) :=
  match deviceLookup st deviceId with
  | none => .error .deviceNotFound
  | some device =>
    match maybeSingle (pendingLogs st userId deviceId projectId) with
    | some existingLog => .ok (existingDTO existingLog, st)
    | none =>
      match tsGetActiveSettings st.settings with
      | none => .error .settingsNotFound
      | some settings =>
        let newLog := newPendingLog st userId deviceId projectId device settings
        .ok
          ({ requestId := newLog.id
             deviceId := newLog.deviceId
             projectId := newLog.projectId
             status := Status.pending
             sellPriceEUR := none
             timestamp := newLog.createdAt },
           insertedState st newLog)

/-- Comparison on `created_at` of logs, modelling
`ORDER BY created_at { ascending: false }` of getUserRequests. -/
def logNewer (a b : InquiryLog) : Prop :=
  b.createdAt ≤ a.createdAt

instance : DecidableRel logNewer :=
  fun a b => inferInstanceAs (Decidable (b.createdAt ≤ a.createdAt))

instance : IsTotal InquiryLog logNewer :=
  ⟨fun a b => Or.symm (Nat.le_total a.createdAt b.createdAt)⟩

instance : IsTrans InquiryLog logNewer :=
  ⟨fun _ _ _ hab hbc => Nat.le_trans hbc hab⟩

/-- The store query of `getUserRequests` (supabaseBackend.ts 394-398):
`inquiry_logs` filtered on the user id, ordered by created_at descending. -/
def queryUserLogs (st : BackendState) (userId : String) : List InquiryLog :=
  List.insertionSort logNewer (st.logs.filter (fun l => l.userId == userId))

/-- The row mapping of `getUserRequests` (supabaseBackend.ts 405-412):
the price snapshot is exposed only when the status is approved. -/
def toDTO (l : InquiryLog) : RequestStatusDTO :=
  { requestId := l.id
    deviceId := l.deviceId
    projectId := l.projectId
    status := l.status
    sellPriceEUR := if l.status = Status.approved then some l.sellPriceSnapshot else none
    timestamp := l.createdAt }

/-- A store read outcome: either rows or a transient store error. -/
inductive StoreRead (α : Type) where
  | ok (rows : α)
  | failed (message : String)

/-- Method `SupabaseBackendService.getUserRequests` (supabaseBackend.ts 393-413)
applied to the outcome of the store read: on a store error it logs and
returns the empty list (lines 400-403), otherwise it maps the rows. -/
def getUserRequestsFromRead (read : StoreRead (List InquiryLog)) :
    List RequestStatusDTO :=
  match read with
  | .failed _ => []
  | .ok rows => rows.map toDTO

/-- The full `getUserRequests` when the store read succeeds. -/
def getUserRequests (st : BackendState) (userId : String) : List RequestStatusDTO :=
  getUserRequestsFromRead (.ok (queryUserLogs st userId))

/-- The per-row effect of the `setRequestStatus` update
(supabaseBackend.ts 582-588): `.eq(id, logId)` selects the row, the update
payload sets status and admin_response_time. -/
def setLogStatus (logId : Nat) (status : Status) (now : Nat) (l : InquiryLog) :
    InquiryLog :=
  if l.id = logId then { l with status := status, adminResponseTime := some now } else l

/-- Method `SupabaseBackendService.setRequestStatus` (supabaseBackend.ts 581-593):
updates status and admin_response_time of the rows matching the log id,
with no check of the current status. -/
def setRequestStatus (st : BackendState) (logId : Nat) (status : Status) :
    BackendState :=
  { st with logs := st.logs.map (setLogStatus logId status st.now) }

theorem maybeSingle_eq_none_of_length_ne_one (rows : List α)
    (h : rows.length ≠ 1) : maybeSingle rows = none := by
  match rows with
  | [] => rfl
  | [x] => exact absurd rfl h
  | x :: y :: t => rfl

/-- An active parameter row, older twin of `settingsRowB`. -/
def settingsRowA : GlobalSettings :=
  { exampleSettings with id := "sA", createdAt := 10 }

/-- An active parameter row, newer twin of `settingsRowA`. -/
def settingsRowB : GlobalSettings :=
  { exampleSettings with id := "sB", createdAt := 20 }

/-- C5 counterexample: with two active parameter rows the server-side lookup
of calculate_price_logic does not fail; it silently picks the row with the
later created_at, refuting the claim that retrieval fails whenever more than
one row is active. -/
theorem sqlGetActiveSettings_picks_among_multiple :
    settingsRowA.isActive = true ∧ settingsRowB.isActive = true
      ∧ sqlGetActiveSettings [settingsRowA, settingsRowB] = some settingsRowB :=
  ⟨rfl, rfl, rfl⟩

/-- C5 amended: the client-side retrieval (the maybeSingle read of
requestPrice) yields no parameter set whenever the number of active rows is
not exactly one, in either direction; the server-side retrieval of
calculate_price_logic fails only when no row is active, and whenever at
least one row is active it silently resolves the violation by returning one
of the active rows (the latest by created_at). -/
theorem getActiveSettings_amended :
    (∀ rows : List GlobalSettings,
        (rows.filter (fun s => s.isActive)).length ≠ 1 →
        tsGetActiveSettings rows = none)
      ∧ (∀ rows : List GlobalSettings,
          sqlGetActiveSettings rows = none ↔ rows.filter (fun s => s.isActive) = [])
      ∧ (∀ (rows : List GlobalSettings) (r : GlobalSettings),
          sqlGetActiveSettings rows = some r → r ∈ rows ∧ r.isActive = true) := by
  refine ⟨fun rows h => maybeSingle_eq_none_of_length_ne_one _ h, fun rows => ?_, ?_⟩
  · constructor
    · intro h
      unfold sqlGetActiveSettings at h
      rw [List.head?_eq_none_iff] at h
      have hp := List.perm_insertionSort settingsNewer (rows.filter (fun s => s.isActive))
      rw [h] at hp
      exact (hp.symm.eq_nil)
    · intro h
      unfold sqlGetActiveSettings
      rw [h]
      rfl
  · intro rows r h
    unfold sqlGetActiveSettings at h
    cases e : List.insertionSort settingsNewer (rows.filter (fun s => s.isActive)) with
    | nil => rw [e] at h; exact absurd h (by simp)
    | cons a t =>
      rw [e] at h
      have ha : a = r := by
        have : some a = some r := h
        exact Option.some.inj this
      subst ha
      have hm : a ∈ List.insertionSort settingsNewer (rows.filter (fun s => s.isActive)) := by
        rw [e]; exact List.mem_cons_self a t
      rw [List.mem_insertionSort, List.mem_filter] at hm
      exact ⟨hm.1, by simpa using hm.2⟩

/-- C5 witness: with the two concrete active rows the client-side lookup
yields no parameter set. -/
theorem getActiveSettings_amended_w :
    tsGetActiveSettings [settingsRowA, settingsRowB] = none :=
  getActiveSettings_amended.1 [settingsRowA, settingsRowB] (by decide)

/-- An inquiry row already in the terminal approved state. -/
def approvedLog : InquiryLog :=
  { id := 1
    userId := "u1"
    deviceId := "d1"
    projectId := "p1"
    categoryNameSnapshot := "VRF Systems"
    modelNameSnapshot := "VRF-Outdoor-20HP"
    sellPriceSnapshot := 16056
    status := Status.approved
    adminResponseTime := some 50
    createdAt := 10 }

/-- A store whose only inquiry row is `approvedLog`. -/
def approvedState : BackendState :=
  { devices := []
    categories := []
    settings := []
    logs := [approvedLog]
    nextId := 2
    now := 100 }

/-- C6 (code evaluated at the failing input): setRequestStatus carries no
terminal-state guard; called with rejected on a log already approved, it
silently overwrites the status and the admin response time instead of
failing with InvalidStateTransition and leaving the log unchanged. -/
theorem setRequestStatus_overwrites_terminal :
    (setRequestStatus approvedState 1 Status.rejected).logs
      = [{ approvedLog with status := Status.rejected, adminResponseTime := some 100 }] :=
  rfl

/-- C9: a setRequestStatus call only rewrites rows through setLogStatus,
which changes at most the status and adminResponseTime fields; the id,
userId, deviceId, projectId, the snapshots and createdAt of every row are
preserved, rows whose id differs from the target are left entirely
unchanged, and the other tables are untouched. -/
theorem setRequestStatus_frame (st : BackendState) (logId : Nat) (status : Status) :
    (setRequestStatus st logId status).devices = st.devices
      ∧ (setRequestStatus st logId status).categories = st.categories
      ∧ (setRequestStatus st logId status).settings = st.settings
      ∧ (setRequestStatus st logId status).logs
        = st.logs.map (setLogStatus logId status st.now)
      ∧ (∀ l : InquiryLog,
          (setLogStatus logId status st.now l).id = l.id
            ∧ (setLogStatus logId status st.now l).userId = l.userId
            ∧ (setLogStatus logId status st.now l).deviceId = l.deviceId
            ∧ (setLogStatus logId status st.now l).projectId = l.projectId
            ∧ (setLogStatus logId status st.now l).categoryNameSnapshot
              = l.categoryNameSnapshot
            ∧ (setLogStatus logId status st.now l).modelNameSnapshot
              = l.modelNameSnapshot
            ∧ (setLogStatus logId status st.now l).sellPriceSnapshot
              = l.sellPriceSnapshot
            ∧ (setLogStatus logId status st.now l).createdAt = l.createdAt)
      ∧ (∀ l : InquiryLog, l.id ≠ logId → setLogStatus logId status st.now l = l) := by
  refine ⟨rfl, rfl, rfl, rfl, fun l => ?_, fun l h => ?_⟩
  · unfold setLogStatus
    split <;> exact ⟨rfl, rfl, rfl, rfl, rfl, rfl, rfl, rfl⟩
  · simp [setLogStatus, h]

/-- A second inquiry row, not targeted by the update of the C9 witness. -/
def bystanderLog : InquiryLog :=
  { approvedLog with id := 7, status := Status.pending, adminResponseTime := none }

/-- C9 witness: a row whose id differs from the updated one is unchanged. -/
theorem setRequestStatus_frame_w :
    setLogStatus 1 Status.approved approvedState.now bystanderLog = bystanderLog :=
  (setRequestStatus_frame approvedState 1 Status.approved).2.2.2.2.2 bystanderLog
    (by decide)

/-- C7: getUserRequests returns the rows of the user ordered newest first
(descending creation time), and every returned entry whose status is not
approved carries no price; the snapshot is exposed only on approved rows. -/
theorem getUserRequests_ordered_and_redacted (st : BackendState) (userId : String) :
    List.Sorted (fun a b : RequestStatusDTO => b.timestamp ≤ a.timestamp)
        (getUserRequests st userId)
      ∧ (∀ dto ∈ getUserRequests st userId,
          dto.status ≠ Status.approved → dto.sellPriceEUR = none) := by
  constructor
  · have hs : List.Sorted logNewer (queryUserLogs st userId) :=
      List.sorted_insertionSort logNewer _
    exact List.Pairwise.map toDTO (fun a b h => h) hs
  · intro dto hmem hne
    have hmem' : dto ∈ (queryUserLogs st userId).map toDTO := hmem
    rw [List.mem_map] at hmem'
    obtain ⟨l, _, rfl⟩ := hmem'
    have hl : l.status ≠ Status.approved := hne
    show (if l.status = Status.approved then some l.sellPriceSnapshot else none) = none
    rw [if_neg hl]

/-- A pending inquiry row of the C7 witness user. -/
def pendingLogW : InquiryLog :=
  { id := 3
    userId := "u1"
    deviceId := "d1"
    projectId := "p1"
    categoryNameSnapshot := "VRF Systems"
    modelNameSnapshot := "VRF-Outdoor-20HP"
    sellPriceSnapshot := 16056
    status := Status.pending
    adminResponseTime := none
    createdAt := 5 }

/-- A store whose only inquiry row is `pendingLogW`. -/
def stateW7 : BackendState :=
  { devices := []
    categories := []
    settings := []
    logs := [pendingLogW]
    nextId := 4
    now := 6 }

/-- C7 witness: the pending entry returned for the witness user carries no
price. -/
theorem getUserRequests_ordered_and_redacted_w :
    (toDTO pendingLogW).sellPriceEUR = none :=
  (getUserRequests_ordered_and_redacted stateW7 "u1").2 (toDTO pendingLogW)
    (List.mem_singleton.mpr rfl) (by decide)

/-- C10: when the store read fails, getUserRequests returns the empty list
instead of propagating the error, so the caller cannot distinguish a failed
read from a user with no requests. -/
theorem getUserRequests_swallows_store_failure (message : String) :
    getUserRequestsFromRead (StoreRead.failed message) = ([] : List RequestStatusDTO)
      ∧ getUserRequestsFromRead (StoreRead.failed message)
        = getUserRequestsFromRead (StoreRead.ok []) :=
  ⟨rfl, rfl⟩

/-- C3: against a store holding exactly one pending inquiry row for the
(user, device, project) triple, requestPrice returns that row as the
request id without touching the store; and starting with no pending row,
two consecutive requestPrice calls return the same DTO, the first inserts
exactly one row and the second inserts nothing. -/
theorem requestPrice_idempotent :
    (∀ (st : BackendState) (u d p : String) (dev : Device) (l : InquiryLog),
        deviceLookup st d = some dev →
        pendingLogs st u d p = [l] →
        requestPrice st u d p = .ok (existingDTO l, st))
      ∧ (∀ (st : BackendState) (u d p : String) (dev : Device) (s : GlobalSettings),
          deviceLookup st d = some dev →
          tsGetActiveSettings st.settings = some s →
          pendingLogs st u d p = [] →
          ∃ dto st1, requestPrice st u d p = .ok (dto, st1)
            ∧ st1.logs = st.logs ++ [newPendingLog st u d p dev s]
            ∧ requestPrice st1 u d p = .ok (dto, st1)) := by
  constructor
  · intro st u d p dev l hdev hpend
    unfold requestPrice
    rw [hdev, hpend]
    rfl
  · intro st u d p dev s hdev hset hpend
    refine ⟨existingDTO (newPendingLog st u d p dev s),
      insertedState st (newPendingLog st u d p dev s), ?_, rfl, ?_⟩
    · unfold requestPrice
      rw [hdev, hpend, hset]
      rfl
    · have hdev1 : deviceLookup (insertedState st (newPendingLog st u d p dev s)) d
          = some dev := hdev
      have hpend1 : pendingLogs (insertedState st (newPendingLog st u d p dev s)) u d p
          = [newPendingLog st u d p dev s] := by
        show List.filter _ (st.logs ++ [newPendingLog st u d p dev s]) = _
        rw [List.filter_append]
        have hpend' : List.filter _ st.logs = [] := hpend
        rw [hpend']
        simp [newPendingLog]
      unfold requestPrice
      rw [hdev1, hpend1]
      rfl

/-- A pending inquiry row matching the C3 witness triple. -/
def pendingLogW3 : InquiryLog :=
  { id := 9
    userId := "u1"
    deviceId := "d1"
    projectId := "p1"
    categoryNameSnapshot := "VRF Systems"
    modelNameSnapshot := "VRF-Outdoor-20HP"
    sellPriceSnapshot := 16056
    status := Status.pending
    adminResponseTime := none
    createdAt := 42 }

/-- A store with the example device, the seeded settings and one pending
row for the witness triple. -/
def stateW3 : BackendState :=
  { devices := [exampleDevice]
    categories := []
    settings := [exampleSettings]
    logs := [pendingLogW3]
    nextId := 10
    now := 50 }

/-- C3 witness: with the pending row already present, requestPrice returns
its id and leaves the store unchanged. -/
theorem requestPrice_idempotent_w :
    requestPrice stateW3 "u1" "d1" "p1" = .ok (existingDTO pendingLogW3, stateW3) :=
  requestPrice_idempotent.1 stateW3 "u1" "d1" "p1" exampleDevice pendingLogW3 rfl rfl

end DamonService
